import Mathlib

/-!
# Shallow embedding of `apacheconfig/lexer.py` (class `ApacheConfigLexer`)

The Python module drives a PLY (`ply.lex`) scanner with four lexical states
(`INITIAL`, `ccomment`, `multiline`, `heredoc`).  PLY combines the rule
functions of a state into one alternation regex in order of definition and,
at each cursor position, takes the first alternative that matches (Python
`re` alternation semantics, compiled with `re.DOTALL`).  We embed the text
as `List Char`, each rule's regex as a deterministic matcher (greedy with
the backtracking the concrete pattern actually allows), and the scanner as
a fuel-indexed step loop over an explicit `LexState`.

Python exceptions are modelled by `Except`: `ApacheConfigError` raised from
the `t_*_error` hooks becomes `LexErr.illegalChar*`, the `IndexError` /
`ValueError` that `_parse_option_value` can raise become `LexErr.indexError`
and `LexErr.valueError`.
-/

/-- The character classes of the rule regexes. Separator class of
`t_OPTION_AND_VALUE` and of `_parse_option_value`: `[ \n\r\t=]`. -/
def isSep (c : Char) : Bool :=
  c == ' ' || c == '\n' || c == '\r' || c == '\t' || c == '='

/-- Line-terminator characters `[\r\n]`. -/
def isNL (c : Char) : Bool :=
  c == '\n' || c == '\r'

/-- Characters excluded from tag bodies: `[\n\r\t]`. -/
def isTagStop (c : Char) : Bool :=
  c == '\n' || c == '\r' || c == '\t'

/-- Characters stripped by Python `str.strip()` (ASCII whitespace). -/
def isPyWS (c : Char) : Bool :=
  c == ' ' || c == '\t' || c == '\n' || c == '\r' || c == '\x0b' || c == '\x0c'

/-- Python `str.strip()`. -/
def pyStrip (l : List Char) : List Char :=
  ((l.dropWhile isPyWS).reverse.dropWhile isPyWS).reverse

/-- Number of occurrences of a character in a list
(Python `value.count(c)` for a single character). -/
def countChar (c : Char) (l : List Char) : Nat :=
  (l.filter (fun x => x == c)).length

/-- `len(re.findall(r'\r\n|\n|\r', s))`: number of line-terminator
sequences, where `\r\n` counts once. -/
def countTerms : List Char → Nat
  | [] => 0
  | [c] => if isNL c then 1 else 0
  | c1 :: c2 :: t =>
    if c1 == '\r' && c2 == '\n' then countTerms t + 1
    else if isNL c1 then countTerms (c2 :: t) + 1
    else countTerms (c2 :: t)

/-- Python `s.replace('\\\n', '')` (left-to-right, non-overlapping). -/
def removeBackslashNL : List Char → List Char
  | [] => []
  | [c] => [c]
  | c1 :: c2 :: t =>
    if c1 == '\\' && c2 == '\n' then removeBackslashNL t
    else c1 :: removeBackslashNL (c2 :: t)

/-- Python `s.replace('\\#', '#')` (left-to-right, non-overlapping):
the unescaping step of `_parse_option_value`. -/
def replaceEscHash : List Char → List Char
  | [] => []
  | [c] => [c]
  | c1 :: c2 :: t =>
    if c1 = '\\' ∧ c2 = '#' then '#' :: replaceEscHash t
    else c1 :: replaceEscHash (c2 :: t)

/-- Writing a value in source with each literal `#` escaped as the
two-character sequence `\#` (Python `s.replace('#', '\\#')`); the
spec-side construction of the round-trip property. -/
def escapeHash : List Char → List Char
  | [] => []
  | c :: t =>
    if c = '#' then '\\' :: '#' :: escapeHash t
    else c :: escapeHash t

/-- `re.split(r'[ \n\r\t=]+', tok, maxsplit=1)`: split at the first maximal
run of separator characters; `none` when the string holds no separator
(Python then returns a one-element list and tuple unpacking fails). -/
def splitFirstSep : List Char → Option (List Char × List Char)
  | [] => none
  | c :: t =>
    if isSep c then some ([], (c :: t).dropWhile isSep)
    else
      match splitFirstSep t with
      | some (pre, post) => some (c :: pre, post)
      | none => none

/-- Errors a tokenization run can abort with.  The `illegalChar*`
constructors are the `ApacheConfigError`s of the four `t_*_error` hooks;
`indexError` / `valueError` are the uncaught Python exceptions that
`_parse_option_value` can raise; `outOfFuel` is the (never hit with the
fuel `tokenizeFull` supplies) fuel guard of the loop. -/
inductive LexErr where
  | illegalChar (c : Char)
  | illegalCharCcomment (c : Char)
  | illegalCharMultiline (c : Char)
  | illegalCharHeredoc (c : Char)
  | indexError
  | valueError
  | outOfFuel
deriving DecidableEq

/-- `ApacheConfigLexer._parse_option_value`. -/
def pyParseOptionValue (tok : List Char) : Except LexErr (List Char × List Char) :=
  match splitFirstSep tok with
  | none => .error .valueError
  | some (option, v0) =>
    match v0 with
    | [] => .error .indexError
    | c :: rest =>
      let v1 := if c == '"' then rest else c :: rest
      match v1.getLast? with
      | none => .error .indexError
      | some l =>
        let v2 := if l == '"' then v1.dropLast else v1
        let v3 := if v2.contains '#' then replaceEscHash v2 else v2
        .ok (option, v3)

/-- A `tokenize` output entry: `tokenize` appends `token.value`, which is a
bare string for COMMENT/CCOMMENT/tag tokens and a `(name, value)` pair for
OPTION_AND_VALUE tokens (the token type is not part of the output). -/
inductive Val where
  | str (s : List Char)
  | pair (name value : List Char)
deriving DecidableEq

/-- The four exclusive lexical states. -/
inductive Mode where
  | initial
  | ccomment
  | multiline
  | heredoc
deriving DecidableEq

/-- The scanner state: PLY's `lexpos`/`lineno` plus the scratch attributes
the rule functions store on the lexer object. -/
structure LexState where
  pos : Nat
  lineno : Nat
  mode : Mode
  code_start : Nat
  ccomment_level : Nat
  heredoc_anchor : List Char
  heredoc_option : List Char
deriving DecidableEq

/-- Largest index `i ≥ 1` (counting from the second argument) at which the
predicate holds; drives the backtracking of the greedy tag-body regexes. -/
def lastHitIdx (p : Char → Bool) : List Char → Nat → Option Nat
  | [], _ => none
  | c :: t, i =>
    match lastHitIdx p t (i + 1) with
    | some j => some j
    | none => if p c && decide (1 ≤ i) then some i else none

/-- `t_COMMENT`, regex `(?<!\\)\#[^\n\r]*`; returns the emitted value
(the `#` stripped) and the matched length. -/
def matchComment (prevBS : Bool) (rest : List Char) : Option (List Char × Nat) :=
  if prevBS then none
  else
    match rest with
    | '#' :: t =>
      let body := t.takeWhile (fun c => !(isNL c))
      some (body, body.length + 1)
    | _ => none

/-- `t_CLOSE_TAG`, regex `</[^\n\r\t]+>`: the greedy body backtracks to the
last `>` in the line, at body offset `≥ 1`. -/
def matchCloseTag (rest : List Char) : Option (List Char × Nat) :=
  match rest with
  | '<' :: '/' :: t =>
    let run := t.takeWhile (fun c => !(isTagStop c))
    match lastHitIdx (fun c => c == '>') run 0 with
    | some j => some (run.take j, j + 3)
    | none => none
  | _ => none

/-- `t_OPEN_CLOSE_TAG`, regex `<[^\n\r\t/]+/>`: the body excludes `/`, so
the greedy run admits no backtracking and `/>` must follow it directly. -/
def matchOpenCloseTag (rest : List Char) : Option (List Char × Nat) :=
  match rest with
  | '<' :: t =>
    let run := t.takeWhile (fun c => !(isTagStop c) && c != '/')
    if decide (1 ≤ run.length) && (t.get? run.length == some '/')
        && (t.get? (run.length + 1) == some '>') then
      some (run, run.length + 3)
    else none
  | _ => none

/-- `t_OPEN_TAG`, regex `<[^\n\r\t]+>`: greedy to the last `>` in the
line, at body offset `≥ 1`. -/
def matchOpenTag (rest : List Char) : Option (List Char × Nat) :=
  match rest with
  | '<' :: t =>
    let run := t.takeWhile (fun c => !(isTagStop c))
    match lastHitIdx (fun c => c == '>') run 0 with
    | some j => some (run.take j, j + 2)
    | none => none
  | _ => none

/-- `t_OPTION_AND_VALUE`, regex `[^ \n\r\t=]+[ \n\r\t=]+[^\r\n]+`:
returns the full matched text and its length.  The first class is forced
maximal; the separator run only backtracks when the third class would
otherwise start at end of input, in which case it retreats to the last
separator that is not itself `\r`/`\n`. -/
def matchOptionAndValue (rest : List Char) : Option (List Char × Nat) :=
  let a := rest.takeWhile (fun c => !(isSep c))
  if a.length = 0 then none
  else
    let r2 := rest.drop a.length
    let bmax := (r2.takeWhile isSep).length
    if bmax = 0 then none
    else
      let r3 := r2.drop bmax
      if r3.length ≠ 0 then
        let cpart := r3.takeWhile (fun c => !(isNL c))
        some (a ++ r2.take bmax ++ cpart, a.length + bmax + cpart.length)
      else
        match lastHitIdx (fun c => !(isNL c)) (r2.take bmax) 0 with
        | some b =>
          let cpart := (r2.drop b).takeWhile (fun c => !(isNL c))
          some (a ++ r2.take b ++ cpart, a.length + b + cpart.length)
        | none => none

/-- `t_WHITESPACE`, regex `[ \t]+`. -/
def matchWS (rest : List Char) : Option Nat :=
  let run := rest.takeWhile (fun c => c == ' ' || c == '\t')
  if run.length = 0 then none else some run.length

/-- The `NEWLINE` regex `\r\n|\n|\r` (alternation tried left to right). -/
def matchNL : List Char → Option Nat
  | '\r' :: '\n' :: _ => some 2
  | '\n' :: _ => some 1
  | '\r' :: _ => some 1
  | _ => none

/-- `[^\r\n]+` of the `multiline` and `heredoc` states: the rest of the
physical line, when non-empty. -/
def matchRestOfLine (rest : List Char) : Option (List Char × Nat) :=
  let run := rest.takeWhile (fun c => !(isNL c))
  if run.length = 0 then none else some (run, run.length)

/-- One scan step in state `INITIAL`: the alternatives in definition order
`t_COMMENT`, `t_CCOMMENT`, `t_CLOSE_TAG`, `t_OPEN_CLOSE_TAG`, `t_OPEN_TAG`,
`t_OPTION_AND_VALUE`, `t_WHITESPACE`, `t_NEWLINE`; the first that matches
at the cursor wins. -/
def stepInitial (text : List Char) (st : LexState) : Except LexErr (Option Val × LexState) :=
  let rest := text.drop st.pos
  let prevBS : Bool :=
    match st.pos with
    | 0 => false
    | p + 1 => text.get? p == some '\\'
  match matchComment prevBS rest with
  | some (body, len) => .ok (some (.str body), { st with pos := st.pos + len })
  | none =>
    if ['/', '*'].isPrefixOf rest then
      .ok (none, { st with pos := st.pos + 2, mode := .ccomment,
                           code_start := st.pos + 2, ccomment_level := 1 })
    else
      match matchCloseTag rest with
      | some (v, len) => .ok (some (.str v), { st with pos := st.pos + len })
      | none =>
        match matchOpenCloseTag rest with
        | some (v, len) => .ok (some (.str v), { st with pos := st.pos + len })
        | none =>
          match matchOpenTag rest with
          | some (v, len) => .ok (some (.str v), { st with pos := st.pos + len })
          | none =>
            match matchOptionAndValue rest with
            | some (raw, len) =>
              if raw.getLast? == some '\\' then
                .ok (none, { st with pos := st.pos + len, mode := .multiline,
                                     code_start := st.pos })
              else
                let nl := countTerms raw
                match pyParseOptionValue raw with
                | .error e => .error e
                | .ok (o, v) =>
                  if ['<', '<'].isPrefixOf v then
                    .ok (none, { st with pos := st.pos + len, mode := .heredoc,
                                         heredoc_anchor := pyStrip (v.drop 2),
                                         heredoc_option := o,
                                         code_start := st.pos + len })
                  else
                    .ok (some (.pair o v),
                         { st with pos := st.pos + len, lineno := st.lineno + nl })
            | none =>
              match matchWS rest with
              | some len => .ok (none, { st with pos := st.pos + len })
              | none =>
                match matchNL rest with
                | some len =>
                  .ok (none, { st with pos := st.pos + len, lineno := st.lineno + 1 })
                | none => .error (.illegalChar (rest.headD ' '))

/-- One scan step in state `ccomment`: `t_ccomment_open`,
`t_ccomment_close`, `t_ccomment_body` (`.+?` under `re.DOTALL` consumes one
arbitrary character); no input can fail to match.  On closing to depth 0
the emitted value is `lexdata[code_start:lexpos + 1]` and `lineno` grows by
that value's count of `'\n'` characters. -/
def stepCcomment (text : List Char) (st : LexState) : Option Val × LexState :=
  let rest := text.drop st.pos
  if ['/', '*'].isPrefixOf rest then
    (none, { st with pos := st.pos + 2, ccomment_level := st.ccomment_level + 1 })
  else if ['*', '/'].isPrefixOf rest then
    let lvl := st.ccomment_level - 1
    if lvl = 0 then
      let lexpos := st.pos + 2
      let v := (text.drop st.code_start).take (lexpos + 1 - st.code_start)
      (some (.str v),
       { st with pos := lexpos, lineno := st.lineno + countChar '\n' v,
                 mode := .initial, ccomment_level := 0 })
    else (none, { st with pos := st.pos + 2, ccomment_level := lvl })
  else (none, { st with pos := st.pos + 1 })

/-- One scan step in state `multiline`: `t_multiline_OPTION_AND_VALUE`
then `t_multiline_NEWLINE`.  On the final (no trailing backslash) line the
raw span `lexdata[code_start:lexpos + 1]` is joined and re-split, and
`lineno` grows by the count of terminators in the whole raw span. -/
def stepMultiline (text : List Char) (st : LexState) : Except LexErr (Option Val × LexState) :=
  let rest := text.drop st.pos
  match matchRestOfLine rest with
  | some (raw, len) =>
    if raw.getLast? == some '\\' then
      .ok (none, { st with pos := st.pos + len })
    else
      let lexpos := st.pos + len
      let v0 := (text.drop st.code_start).take (lexpos + 1 - st.code_start)
      let nl := countTerms v0
      let joined := ((removeBackslashNL v0).filter (fun c => c != '\r')).filter
        (fun c => c != '\n')
      match pyParseOptionValue joined with
      | .error e => .error e
      | .ok (o, v) =>
        .ok (some (.pair o v),
             { st with pos := lexpos, lineno := st.lineno + nl, mode := .initial })
  | none =>
    match matchNL rest with
    | some len => .ok (none, { st with pos := st.pos + len, lineno := st.lineno + 1 })
    | none => .error (.illegalCharMultiline (rest.headD ' '))

/-- One scan step in state `heredoc`: `t_heredoc_OPTION_AND_VALUE` then
`t_heredoc_NEWLINE`.  A line equal to the anchor emits
`(heredoc_option, lexdata[code_start + 1 : lexpos - len(anchor)])`. -/
def stepHeredoc (text : List Char) (st : LexState) : Except LexErr (Option Val × LexState) :=
  let rest := text.drop st.pos
  match matchRestOfLine rest with
  | some (raw, len) =>
    if raw == st.heredoc_anchor then
      let lexpos := st.pos + len
      let v := (text.drop (st.code_start + 1)).take
        (lexpos - st.heredoc_anchor.length - (st.code_start + 1))
      .ok (some (.pair st.heredoc_option v),
           { st with pos := lexpos, lineno := st.lineno + countTerms raw,
                     mode := .initial })
    else
      .ok (none, { st with pos := st.pos + len })
  | none =>
    match matchNL rest with
    | some len => .ok (none, { st with pos := st.pos + len, lineno := st.lineno + 1 })
    | none => .error (.illegalCharHeredoc (rest.headD ' '))

/-- One scan step, dispatching on the active state. -/
def step (text : List Char) (st : LexState) : Except LexErr (Option Val × LexState) :=
  match st.mode with
  | .initial => stepInitial text st
  | .ccomment => .ok (stepCcomment text st)
  | .multiline => stepMultiline text st
  | .heredoc => stepHeredoc text st

/-- The `tokenize` loop: repeat `step` until the cursor reaches end of
input (PLY's `token()` then returns `None` and `tokenize` returns the
collected values, whatever state is active). -/
def tokLoop (text : List Char) : Nat → LexState → List Val → Except LexErr (List Val × LexState)
  | 0, _, _ => .error .outOfFuel
  | fuel + 1, st, acc =>
    if st.pos < text.length then
      match step text st with
      | .error e => .error e
      | .ok (none, st2) => tokLoop text fuel st2 acc
      | .ok (some v, st2) => tokLoop text fuel st2 (v :: acc)
    else .ok (acc.reverse, st)

/-- PLY's fresh lexer state: cursor 0, `lineno` 1, state `INITIAL`. -/
def initState : LexState :=
  { pos := 0, lineno := 1, mode := .initial, code_start := 0,
    ccomment_level := 0, heredoc_anchor := [], heredoc_option := [] }

/-- `ApacheConfigLexer.tokenize`, also returning the final scanner state
(every rule consumes at least one character, so `length + 1` fuel always
reaches end of input). -/
def tokenizeFull (text : List Char) : Except LexErr (List Val × LexState) :=
  tokLoop text (text.length + 1) initState []

/-- `ApacheConfigLexer.tokenize(text)`: the list of `token.value`s. -/
def tokenize (text : List Char) : Except LexErr (List Val) :=
  (tokenizeFull text).map (fun r => r.1)

/-- The lexer's line counter after `tokenize` returns. -/
def finalLineno (text : List Char) : Except LexErr Nat :=
  (tokenizeFull text).map (fun r => r.2.lineno)

/-- Characters of a string literal. -/
def chars (s : String) : List Char :=
  s.toList

example : tokenize (chars ("key value\n")) =
    .ok [.pair (chars ("key")) (chars ("value"))] := by rfl

example : tokenize (chars ("<Foo>\n</Foo>\n")) =
    .ok [.str (chars ("Foo")), .str (chars ("Foo"))] := by rfl

example : tokenize (chars ("# hello\n")) = .ok [.str (chars (" hello"))] := by rfl

example : tokenize (chars ("key \"quoted value\"\n")) =
    .ok [.pair (chars ("key")) (chars ("quoted value"))] := by rfl

example : tokenize (chars ("key line1 \\\nline2\n")) =
    .ok [.pair (chars ("key")) (chars ("line1 line2"))] := by rfl

/-! ## Helper lemmas for the escape round-trip -/

/-- `escapeHash` output never starts with a bare `#`: a produced `#` is
always preceded by the inserted backslash. -/
theorem escapeHash_head_ne (t : List Char) (d : Char) (s : List Char)
    (h : escapeHash t = d :: s) : d ≠ '#' := by
  cases t with
  | nil => simp [escapeHash] at h
  | cons a u =>
    rw [escapeHash] at h
    by_cases ha : a = '#'
    · rw [if_pos ha] at h
      injection h with h1 _
      rw [← h1]
      decide
    · rw [if_neg ha] at h
      injection h with h1 _
      rw [← h1]
      exact ha

/-- `escapeHash` of a non-empty list is non-empty. -/
theorem escapeHash_eq_nil (t : List Char) (h : escapeHash t = []) : t = [] := by
  cases t with
  | nil => rfl
  | cons a u =>
    rw [escapeHash] at h
    split at h <;> simp at h

/-- Unescaping inverts escaping: replacing each `#` by `\#` and then each
`\#` by `#` restores the original list. -/
theorem replaceEscHash_escapeHash (v : List Char) :
    replaceEscHash (escapeHash v) = v := by
  induction v with
  | nil => rfl
  | cons c t ih =>
    by_cases hc : c = '#'
    · subst hc
      rw [escapeHash, if_pos rfl]
      show replaceEscHash ('\\' :: '#' :: escapeHash t) = '#' :: t
      rw [replaceEscHash, if_pos ⟨rfl, rfl⟩, ih]
    · rw [escapeHash, if_neg hc]
      cases he : escapeHash t with
      | nil =>
        have ht : t = [] := escapeHash_eq_nil t he
        subst ht
        simp [replaceEscHash]
      | cons d s =>
        have hd : d ≠ '#' := escapeHash_head_ne t d s he
        show replaceEscHash (c :: d :: s) = c :: t
        rw [replaceEscHash, if_neg (fun hand => hd hand.2), ← he, ih]

/-! ## Claim theorems -/

/-- Claim C1 (code evaluation at the failing input): the line counter does
not equal 1 plus the number of consumed line-terminator sequences.  For
`"/*x*/\n"` there is one terminator, yet the counter ends at 3 instead of
2: `t_ccomment_close` counts the `'\n'` that its value slice
`lexdata[code_start:lexpos + 1]` grabs from beyond the closing `*/`, and
`t_NEWLINE` then counts the same character again.  For the continuation
`"key a \\\nb\n"` there are two terminators, yet the counter ends at 5
instead of 3: `t_multiline_OPTION_AND_VALUE` recounts, via `re.findall`
over the whole raw span, the newline already counted by
`t_multiline_NEWLINE`, and its span also includes the final newline that
`t_NEWLINE` counts once more. -/
theorem c1_line_counter_double_counts :
    finalLineno (chars ("/*x*/\n")) = .ok 3 ∧
    countTerms (chars ("/*x*/\n")) = 1 ∧
    finalLineno (chars ("key a \\\nb\n")) = .ok 5 ∧
    countTerms (chars ("key a \\\nb\n")) = 2 :=
  ⟨rfl, rfl, rfl, rfl⟩

/-- Claim C2 counterexample: in the Default state the longest match does
not win.  At the start of `"<a> b c\n"` the `OPTION_AND_VALUE` rule
matches 7 characters and the `OPEN_TAG` rule only 3, yet the emitted
token is `OPEN_TAG`'s (the bare string `"a"`, not an option pair), because
PLY takes the first rule in definition order that matches at all.  On the
claim's own example line `"<a> b"` the scanner even aborts with an
illegal-character error instead of emitting the predicted
`OPTION_AND_VALUE` token. -/
theorem c2_counterexample :
    tokenize (chars ("<a> b c\n")) =
      .ok [.str (chars ("a")), .pair (chars ("b")) (chars ("c"))] ∧
    matchOptionAndValue (chars ("<a> b c\n")) = some (chars ("<a> b c"), 7) ∧
    matchOpenTag (chars ("<a> b c\n")) = some (chars ("a"), 3) ∧
    tokenize (chars ("<a> b")) = .error (.illegalChar 'b') :=
  ⟨rfl, rfl, rfl, rfl⟩

/-- Claim C2 as amended: in the Default state the rules are tried in
declaration order (COMMENT, block-comment opener, CLOSE_TAG,
OPEN_CLOSE_TAG, OPEN_TAG, OPTION_AND_VALUE, whitespace, newline) and the
first rule that matches at the cursor wins, regardless of match length.
On `"<a> b c\n"` the earlier `OPEN_TAG` rule beats the strictly longer
`OPTION_AND_VALUE` match; on `"<Foo/>\n"` both tag rules match 6
characters and the earlier `OPEN_CLOSE_TAG` wins the tie. -/
theorem c2_first_declared_match_wins :
    tokenize (chars ("<a> b c\n")) =
      .ok [.str (chars ("a")), .pair (chars ("b")) (chars ("c"))] ∧
    matchOptionAndValue (chars ("<a> b c\n")) = some (chars ("<a> b c"), 7) ∧
    tokenize (chars ("<Foo/>\n")) = .ok [.str (chars ("Foo"))] ∧
    matchOpenTag (chars ("<Foo/>\n")) = some (chars ("Foo/"), 6) ∧
    matchOpenCloseTag (chars ("<Foo/>\n")) = some (chars ("Foo"), 6) :=
  ⟨rfl, rfl, rfl, rfl, rfl⟩

/-- Claim C3 counterexample: tokenizing `"/* unterminated"` does not raise
any error; it returns normally with an empty token list (the code has no
end-of-input check for the block-comment state, and no
unterminated-comment error exists anywhere in it). -/
theorem c3_counterexample :
    tokenize (chars ("/* unterminated")) = .ok [] :=
  rfl

/-- Claim C3 as amended: when end of input is reached while the
block-comment state is active (nesting depth still positive), tokenization
returns normally with the tokens accumulated so far and no error — in
particular `"/* unterminated"` tokenizes to the empty list. -/
theorem c3_unterminated_comment_returns_normally :
    tokenize (chars ("/* unterminated")) = .ok [] ∧
    ∀ (text : List Char) (fuel : Nat) (st : LexState) (acc : List Val),
      st.mode = Mode.ccomment → text.length ≤ st.pos →
        tokLoop text (fuel + 1) st acc = .ok (acc.reverse, st) := by
  refine ⟨rfl, ?_⟩
  intro text fuel st acc _ h
  simp only [tokLoop]
  rw [if_neg (Nat.not_lt.mpr h)]

theorem c3_unterminated_comment_returns_normally_witness :
    tokLoop (chars ("ab")) 1 ⟨2, 1, Mode.ccomment, 2, 1, [], []⟩ [] =
      .ok ([], ⟨2, 1, Mode.ccomment, 2, 1, [], []⟩) :=
  c3_unterminated_comment_returns_normally.2 (chars ("ab")) 0
    ⟨2, 1, Mode.ccomment, 2, 1, [], []⟩ [] rfl (by decide)

/-- Claim C4 counterexample: tokenizing `"key <<EOF\nbody\n"` (the anchor
line never appears) does not raise any error; it returns normally with an
empty token list (the code has no end-of-input check for the heredoc
state, and no unterminated-heredoc error exists anywhere in it). -/
theorem c4_counterexample :
    tokenize (chars ("key <<EOF\nbody\n")) = .ok [] :=
  rfl

/-- Claim C4 as amended: when end of input is reached while the heredoc
state is still searching for the anchor line, tokenization returns
normally with the tokens accumulated so far and no error — in particular
`"key <<EOF\nbody\n"` tokenizes to the empty list. -/
theorem c4_unterminated_heredoc_returns_normally :
    tokenize (chars ("key <<EOF\nbody\n")) = .ok [] ∧
    ∀ (text : List Char) (fuel : Nat) (st : LexState) (acc : List Val),
      st.mode = Mode.heredoc → text.length ≤ st.pos →
        tokLoop text (fuel + 1) st acc = .ok (acc.reverse, st) := by
  refine ⟨rfl, ?_⟩
  intro text fuel st acc _ h
  simp only [tokLoop]
  rw [if_neg (Nat.not_lt.mpr h)]

theorem c4_unterminated_heredoc_returns_normally_witness :
    tokLoop (chars ("ab")) 1
        ⟨2, 2, Mode.heredoc, 9, 0, chars ("EOF"), chars ("key")⟩ [] =
      .ok ([], ⟨2, 2, Mode.heredoc, 9, 0, chars ("EOF"), chars ("key")⟩) :=
  c4_unterminated_heredoc_returns_normally.2 (chars ("ab")) 0
    ⟨2, 2, Mode.heredoc, 9, 0, chars ("EOF"), chars ("key")⟩ [] rfl (by decide)

/-- Claim C5 counterexample: the CCOMMENT value of
`"/* a /* b */ c */\n"` is not the verbatim `"/* a /* b */ c */"`.
`t_CCOMMENT` records `code_start` *after* the opening `/*`, and
`t_ccomment_close` slices `lexdata[code_start:lexpos + 1]`, one character
past the closing `*/`; the emitted value therefore drops the opening
delimiter and picks up the following newline. -/
theorem c5_counterexample :
    tokenize (chars ("/* a /* b */ c */\n")) =
      .ok [.str (chars (" a /* b */ c */\n"))] ∧
    chars (" a /* b */ c */\n") ≠ chars ("/* a /* b */ c */") :=
  ⟨rfl, by decide⟩

/-- Claim C5 as amended: for a properly terminated, possibly nested block
comment the emitted CCOMMENT value is the source substring from just
*after* the opening `/*` through *one character past* the closing `*/`
(nothing is appended when the comment ends the input).  Nesting is still
respected: depth reaches 0 only at the final `*/`. -/
theorem c5_ccomment_value :
    tokenize (chars ("/* a /* b */ c */\n")) =
      .ok [.str (chars (" a /* b */ c */\n"))] ∧
    tokenize (chars ("/*a*/")) = .ok [.str (chars ("a*/"))] :=
  ⟨rfl, rfl⟩

/-- Claim C6 counterexample: `tokenize` returns `token.value` only, so the
COMMENT token of `"#a*/"` and the CCOMMENT token of `"/*a*/"` — different
kinds — produce literally identical output; they are not distinguishable
in the returned sequence. -/
theorem c6_counterexample :
    tokenize (chars ("#a*/")) = .ok [.str (chars ("a*/"))] ∧
    tokenize (chars ("/*a*/")) = .ok [.str (chars ("a*/"))] ∧
    tokenize (chars ("#a*/")) = tokenize (chars ("/*a*/")) :=
  ⟨rfl, rfl, rfl⟩

/-- Claim C6 as amended: `tokenize` returns the sequence of token
*payloads* only (each `token.value`), discarding the token kind:
OPTION_AND_VALUE tokens appear as `(name, value)` pairs and every other
kind as a bare string, so two tokens of different string-valued kinds with
identical text are indistinguishable — one input stream can contain a
COMMENT entry and a CCOMMENT entry that are equal. -/
theorem c6_payloads_only :
    tokenize (chars ("#a*/\n/*a*/")) =
      .ok [.str (chars ("a*/")), .str (chars ("a*/"))] ∧
    tokenize (chars ("key v\n")) = .ok [.pair (chars ("key")) (chars ("v"))] :=
  ⟨rfl, rfl⟩

/-- Claim C7 counterexample: with `\r\n` line endings the heredoc body is
not the substring starting just after the opener line's terminator.
`t_heredoc_OPTION_AND_VALUE` slices from `code_start + 1`, where
`code_start` is the offset of the *first* terminator character, so for
`"key <<E\r\nb\r\nE\r\n"` the body keeps the `\n` half of the opener's
`\r\n` and comes out as `"\nb\r\n"` instead of `"b\r\n"`. -/
theorem c7_counterexample :
    tokenize (chars ("key <<E\r\nb\r\nE\r\n")) =
      .ok [.pair (chars ("key")) (chars ("\nb\r\n"))] ∧
    chars ("\nb\r\n") ≠ chars ("b\r\n") :=
  ⟨rfl, by decide⟩

/-- Claim C7 as amended: the emitted token is
`OPTION_AND_VALUE((recorded name, body))` where the body runs from *one
character past the start* of the opener line's terminator up to but
excluding the start of the anchor line.  For one-character terminators
(`\n` or `\r` alone) this coincides with the claim — in particular
`"key <<EOF\nbody line\nEOF\n"` yields `("key", "body line\n")` — while a
`\r\n` opener terminator leaks its `\n` into the body. -/
theorem c7_heredoc_body :
    tokenize (chars ("key <<EOF\nbody line\nEOF\n")) =
      .ok [.pair (chars ("key")) (chars ("body line\n"))] ∧
    tokenize (chars ("key <<E\rb\rE\r")) =
      .ok [.pair (chars ("key")) (chars ("b\r"))] :=
  ⟨rfl, rfl⟩

/-- Claim C8: writing a value with every literal `#` escaped as `\#` and
parsing restores the value exactly (`_parse_option_value` replaces each
`\#` by `#` and processes no other escape), and the escape/parse
round-trip is idempotent.  Concretely, `"key a\\#b\n"` tokenizes to
`("key", "a#b")`. -/
theorem c8_escape_roundtrip (v : List Char) :
    replaceEscHash (escapeHash v) = v ∧
    replaceEscHash (escapeHash (replaceEscHash (escapeHash v))) =
      replaceEscHash (escapeHash v) ∧
    tokenize (chars ("key a\\#b\n")) =
      .ok [.pair (chars ("key")) (chars ("a#b"))] :=
  ⟨replaceEscHash_escapeHash v,
   replaceEscHash_escapeHash (replaceEscHash (escapeHash v)), rfl⟩

/-- Claim C9: on the input line `key "` the value parser strips the
leading quote, leaving the empty string, and then indexes its last
character: tokenization aborts with an uncaught `IndexError`, which is
none of the `ApacheConfigError` (illegal-character) failures. -/
theorem c9_lone_quote_index_error :
    tokenize (chars ("key \"")) = .error .indexError ∧
    pyParseOptionValue (chars ("key \"")) = .error .indexError :=
  ⟨rfl, rfl⟩

/-- Claim C10: the tag regexes are greedy to the last eligible `>` on the
physical line, so `"<a><b>"` is one OPEN_TAG token with value `"a><b"`
and `"</a></b>"` is one CLOSE_TAG token with value `"a></b"`. -/
theorem c10_greedy_tags :
    tokenize (chars ("<a><b>")) = .ok [.str (chars ("a><b"))] ∧
    tokenize (chars ("</a></b>")) = .ok [.str (chars ("a></b"))] :=
  ⟨rfl, rfl⟩
